import Mathlib

/-!
Shallow embedding of the request-shaping / filter-normalization layer of the
Space Frontiers MCP server (src/utils.py, src/mcp_server.py, src/tools.py),
together with theorems settling the behavioural claims about that layer.

Python values that occur in the shaped dictionaries are modelled by the
inductive type PyVal below; Python dictionaries are modelled as association
lists with Python dict semantics (update-in-place keeps position, fresh keys
append at the end).  Python exceptions are modelled with Except; a function
that can raise returns Except PyExc.  Machine-level details that the claims
never touch (unicode case folding beyond ASCII, daylight-saving shifts inside
time.mktime, the float type) are abstracted: strings are lowered per
character, and the local timezone is an explicit integer offset parameter
(seconds east of UTC) threaded through the date functions.
-/

namespace Mcp

/-! Model of the Python values stored in filter maps and documents. -/

inductive PyVal where
  | pyNone
  | bool (b : Bool)
  | int (n : Int)
  | str (s : String)
  | strList (xs : List String)
  | boolList (bs : List Bool)
  | rangeList (rs : List (Int × Int))
  deriving DecidableEq, Repr

/-- Python dictionaries, as association lists in insertion order. -/
abbrev PyDict : Type := List (String × PyVal)

/-- Reads a key from a dictionary, like the Python expression d.get(k). -/
def getKey (d : PyDict) (k : String) : Option PyVal :=
  match d with
  | [] => Option.none
  | (k0, v0) :: rest => if k0 = k then some v0 else getKey rest k

/-- Writes a key, like the Python statement d[k] = v: an existing key keeps
its position, a fresh key is appended at the end. -/
def setKey (d : PyDict) (k : String) (v : PyVal) : PyDict :=
  match d with
  | [] => [(k, v)]
  | (k0, v0) :: rest => if k0 = k then (k0, v) :: rest else (k0, v0) :: setKey rest k v

/-! Character-level models of the Python string operations used by the code.
They operate on the underlying character list so that concrete instances
reduce inside the kernel. -/

/-- Models the Python expression s.lower() (ASCII case folding). -/
def pyLower (s : String) : String := String.mk (s.data.map Char.toLower)

/-- Models the Python expression s.startswith(p). -/
def pyStartsWith (s p : String) : Bool := s.data.take p.data.length == p.data

/-- Models the Python removal of a leading Bearer marker from the header
value (PEP 616 semantics): drop the first six characters when they spell
Bearer, otherwise return s unchanged. -/
def removeBearer (s : String) : String :=
  if pyStartsWith s "Bearer" then String.mk (s.data.drop 6) else s

/-- Whitespace characters stripped by the Python method str.strip(). -/
def pyIsSpace (c : Char) : Bool :=
  c == ' ' || c == '\t' || c == '\n' || c == '\r' || c == '\x0b' || c == '\x0c'

/-- Models the Python expression s.strip(). -/
def pyStrip (s : String) : String :=
  String.mk (((s.data.dropWhile pyIsSpace).reverse.dropWhile pyIsSpace).reverse)

/-- Models the Python expression separator.join(xs). -/
def pyJoin (separator : String) (xs : List String) : String :=
  String.mk (List.intercalate separator.data (xs.map String.data))

/-! Calendar arithmetic.  CivilDate models the Python datetime.date value; the
conversions between civil dates and day numbers follow the standard
days-from-civil / civil-from-days algorithms over the proleptic Gregorian
calendar, which is exactly the calendar used by the Python datetime module. -/

structure CivilDate where
  year : Int
  month : Int
  day : Int
  deriving DecidableEq, Repr

/-- Number of days since 1970-01-01 of a civil date. -/
def daysFromCivil (date : CivilDate) : Int :=
  let y := if date.month ≤ 2 then date.year - 1 else date.year
  let era := y.fdiv 400
  let yoe := y - era * 400
  let mp := (date.month + 9).emod 12
  let doy := (153 * mp + 2).fdiv 5 + date.day - 1
  let doe := yoe * 365 + yoe.fdiv 4 - yoe.fdiv 100 + doy
  era * 146097 + doe - 719468

/-- Civil date of a number of days since 1970-01-01. -/
def civilFromDays (z0 : Int) : CivilDate :=
  let z := z0 + 719468
  let era := z.fdiv 146097
  let doe := z - era * 146097
  let yoe := (doe - doe.fdiv 1460 + doe.fdiv 36524 - doe.fdiv 146096).fdiv 365
  let y := yoe + era * 400
  let doy := doe - (365 * yoe + yoe.fdiv 4 - yoe.fdiv 100)
  let mp := (5 * doy + 2).fdiv 153
  let d := doy - (153 * mp + 2).fdiv 5 + 1
  let m := mp + (if mp < 10 then 3 else -9)
  ⟨y + (if m ≤ 2 then 1 else 0), m, d⟩

/-- Models the Python expression d + timedelta(days=n). -/
def addDays (d : CivilDate) (n : Int) : CivilDate :=
  civilFromDays (daysFromCivil d + n)

/-- Models time.mktime(d.timetuple()) for a date d: the POSIX-epoch seconds of
local midnight of d, in a timezone tz seconds east of UTC (a fixed offset;
daylight-saving shifts are outside the model). -/
def mktime (tz : Int) (d : CivilDate) : Int :=
  daysFromCivil d * 86400 - tz

/-- Models date.fromtimestamp(t): the local calendar date of the POSIX
instant t in a timezone tz seconds east of UTC. -/
def dateFromTimestamp (tz : Int) (t : Int) : CivilDate :=
  civilFromDays ((t + tz).fdiv 86400)

/-! Model of the timestamp conversion datetime.fromtimestamp(v).isoformat().
The datetime type is restricted to years 1 through 9999, so the conversion
raises for epoch values outside that window (ValueError, or OSError or
OverflowError depending on platform; all three are interchangeable for this
code, which always catches the three together, so the model raises
ValueError).  A bool argument is accepted by Python because bool is a
subclass of int; any other non-numeric value raises TypeError.  The bounds
and the rendered string are taken at UTC; the fixed local offset only shifts
which values are in range and the exact digits, never the success or failure
behaviour the claims are about. -/

inductive PyExc where
  | typeError
  | valueError
  | osError
  | overflowError
  deriving DecidableEq, Repr

instance exceptDecEq {ε α : Type} [DecidableEq ε] [DecidableEq α] : DecidableEq (Except ε α)
  | .error a, .error b =>
      if h : a = b then .isTrue (congrArg Except.error h)
      else .isFalse (fun hc => h (Except.error.inj hc))
  | .error _, .ok _ => .isFalse Except.noConfusion
  | .ok _, .error _ => .isFalse Except.noConfusion
  | .ok a, .ok b =>
      if h : a = b then .isTrue (congrArg Except.ok h)
      else .isFalse (fun hc => h (Except.ok.inj hc))

/-- Smallest epoch second accepted by datetime.fromtimestamp (0001-01-01). -/
def tsMin : Int := -62135596800

/-- Largest epoch second accepted by datetime.fromtimestamp (9999-12-31). -/
def tsMax : Int := 253402300799

/-- Left-pads the decimal rendering of a nonnegative integer to two digits. -/
def pad2 (n : Int) : String :=
  if n < 10 then "0" ++ toString n else toString n

/-- Left-pads the decimal rendering of a year to four digits. -/
def pad4 (n : Int) : String :=
  if n < 10 then "000" ++ toString n
  else if n < 100 then "00" ++ toString n
  else if n < 1000 then "0" ++ toString n
  else toString n

/-- Renders the ISO-8601 date-time string of an epoch second. -/
def isoFromSeconds (t : Int) : String :=
  let d := civilFromDays (t.fdiv 86400)
  let sod := t.emod 86400
  pad4 d.year ++ "-" ++ pad2 d.month ++ "-" ++ pad2 d.day ++ "T" ++
    pad2 (sod.fdiv 3600) ++ ":" ++ pad2 ((sod.fdiv 60).emod 60) ++ ":" ++ pad2 (sod.emod 60)

/-- Models datetime.fromtimestamp(v).isoformat() applied to an arbitrary
dictionary value v, returning the rendered string or the raised exception. -/
def fromtimestampIso (v : PyVal) : Except PyExc String :=
  match v with
  | .int n => if tsMin ≤ n ∧ n ≤ tsMax then .ok (isoFromSeconds n) else .error .valueError
  | .bool b => .ok (isoFromSeconds (if b then 1 else 0))
  | _ => .error .typeError

/-- Exceptions caught by the except clause of convert_issued_at in
src/utils.py: except (ValueError, OSError, OverflowError). -/
def isCaughtByConvert (e : PyExc) : Bool :=
  match e with
  | .valueError => true
  | .osError => true
  | .overflowError => true
  | .typeError => false

/-- Embeds convert_issued_at from src/utils.py lines 28-38: rewrite a present
issued_at to ISO format in place, swallowing ValueError, OSError and
OverflowError; other exceptions (TypeError) propagate. -/
def convert_issued_at (document : PyDict) : Except PyExc PyDict :=
  match getKey document "issued_at" with
  | Option.none => .ok document
  | some v =>
    match fromtimestampIso v with
    | .ok s => .ok (setKey document "issued_at" (.str s))
    | .error e => if isCaughtByConvert e then .ok document else .error e

/-- Embeds the unguarded conversion inside format_search_response in
src/mcp_server.py lines 58-64: no try block, every exception propagates. -/
def serverConvertIssuedAt (document : PyDict) : Except PyExc PyDict :=
  match getKey document "issued_at" with
  | Option.none => .ok document
  | some v =>
    match fromtimestampIso v with
    | .ok s => .ok (setKey document "issued_at" (.str s))
    | .error e => .error e

/-! Search responses.  A SearchDocument carries its raw field mapping, the
matched snippet texts and a source tag, mirroring the SearchResponse type of
the spacefrontiers-clients library as used by this code. -/

structure SearchDocument where
  document : PyDict
  snippets : List String
  source : String
  deriving DecidableEq, Repr

structure SearchResponse where
  search_documents : List SearchDocument
  deriving DecidableEq, Repr

/-- Models the library method SearchDocument.join_snippet_texts(separator):
join all snippet texts with the separator. -/
def joinSnippetTexts (sd : SearchDocument) (separator : String) : String :=
  pyJoin separator sd.snippets

/-- Embeds format_search_response from src/utils.py lines 41-52: apply
convert_issued_at to every contained document. -/
def format_search_response (r : SearchResponse) : Except PyExc SearchResponse := do
  let docs ← r.search_documents.mapM (fun sd => do
    let d ← convert_issued_at sd.document
    pure { sd with document := d })
  pure { search_documents := docs }

/-- Embeds format_search_response from src/mcp_server.py lines 58-64, whose
per-document conversion has no try block. -/
def serverFormatSearchResponse (r : SearchResponse) : Except PyExc SearchResponse := do
  let docs ← r.search_documents.mapM (fun sd => do
    let d ← serverConvertIssuedAt sd.document
    pure { sd with document := d })
  pure { search_documents := docs }

/-- Embeds format_document_with_content from src/utils.py lines 55-86.  The
inlined timestamp try block of lines 73-77 is character-for-character the
body of convert_issued_at, so it is shared here. -/
def format_document_with_content (r : SearchResponse) : Except PyExc (Option PyDict) :=
  match r.search_documents with
  | [] => .ok Option.none
  | sd :: _ => do
    let document ← convert_issued_at sd.document
    let document :=
      if sd.snippets.isEmpty then document
      else setKey document "content" (.str (joinSnippetTexts sd " <...> "))
    pure (some (setKey document "source" (.str sd.source)))

/-! Authorization resolution.  The inbound request is modelled as an optional
header list (absent for in-process invocations); the environment variable
SPACE_FRONTIERS_API_KEY as an optional string.  Header lookup is by the exact
key the code uses.  This embeds process_authorization, which appears
verbatim in src/utils.py lines 11-25 and src/mcp_server.py lines 41-55. -/

/-- Looks a header up by name, like the Python expression headers[k] guarded
by the membership test k in headers. -/
def lookupHeader (headers : List (String × String)) (k : String) : Option String :=
  match headers with
  | [] => Option.none
  | (k0, v0) :: rest => if k0 = k then some v0 else lookupHeader rest k

/-- Embeds process_authorization (src/utils.py lines 11-25, src/mcp_server.py
lines 41-55).  With no request context the environment key is used as is;
with headers, X-User-Id wins, else a Bearer-stripped Authorization value,
else X-Api-Key, else the environment key when it is truthy (a present empty
string is falsy in Python and leaves the key unset). -/
def process_authorization (envApiKey : Option String)
    (request : Option (List (String × String))) : Option String × Option String :=
  match request with
  | Option.none => (envApiKey, Option.none)
  | some headers =>
    match lookupHeader headers "X-User-Id" with
    | some u => (Option.none, some u)
    | Option.none =>
      match lookupHeader headers "Authorization" with
      | some a => (some (pyStrip (removeBearer a)), Option.none)
      | Option.none =>
        match lookupHeader headers "X-Api-Key" with
        | some k => (some k, Option.none)
        | Option.none =>
          match envApiKey with
          | some e => if e = "" then (Option.none, Option.none) else (some e, Option.none)
          | Option.none => (Option.none, Option.none)

/-! Filter builders. -/

/-- Models the Python statement xs.remove(a): removes the first occurrence of
a.  All call sites guard the call with a membership test, so the behaviour on
a list without the element (Python raises ValueError) is irrelevant; the
model returns the list unchanged there. -/
def pyRemoveFirst (xs : List String) (a : String) : List String :=
  match xs with
  | [] => []
  | x :: rest => if x = a then rest else x :: pyRemoveFirst rest a

/-- One guarded removal step of setup_sources_filter: the Python line
normalized_sources.remove(tok) under its membership guard leaves the list
with the first occurrence of tok dropped when tok was present. -/
def stage (a : String) (ns : List String) : List String :=
  if a ∈ ns then pyRemoveFirst ns a else ns

/-- Models the Python statement filters.setdefault(key, []).append(v) for the
string-list-valued filter keys.  In this program the key, when present,
always holds a string list; the model leaves the dictionary unchanged on the
impossible non-list case. -/
def setdefaultAppendStr (filters : PyDict) (key : String) (v : String) : PyDict :=
  match getKey filters key with
  | some (.strList xs) => setKey filters key (.strList (xs ++ [v]))
  | some _ => filters
  | Option.none => setKey filters key (.strList [v])

/-- Embeds setup_sources_filter from src/utils.py lines 103-121.  Python
mutates normalized_sources and filters step by step; the embedding threads
the same intermediate values explicitly.  Note that list.remove deletes only
the first occurrence of its argument. -/
def setup_sources_filter (sources : List String) (filters : PyDict) : PyDict :=
  if sources.isEmpty then filters
  else
    let ns0 := sources.map pyLower
    let f1 := if "pubmed" ∈ ns0 then
        setKey filters "metadata.is_pubmed" (.boolList [true]) else filters
    let ns1 := stage "pubmed" ns0
    let f2 := if "arxiv" ∈ ns1 then
        setdefaultAppendStr f1 "metadata.publisher" "arXiv" else f1
    let ns2 := stage "arxiv" ns1
    let f3 := if "biorxiv" ∈ ns2 then
        setdefaultAppendStr f2 "metadata.publisher" "bioRxiv" else f2
    let ns3 := stage "biorxiv" ns2
    let f4 := if "medrxiv" ∈ ns3 then
        setdefaultAppendStr f3 "metadata.publisher" "medRxiv" else f3
    let ns4 := stage "medrxiv" ns3
    if ns4.isEmpty then f4 else setKey f4 "type" (.strList ns4)

/-- Embeds setup_sources_filter from src/mcp_server.py lines 76-96.  Same
shape as the src/utils.py copy, but the canonical publisher strings are the
lower-case source tokens, and the remaining tokens pass through an
intermediate remaining_types list whose effect on the result is identical. -/
def serverSetupSourcesFilter (sources : List String) (filters : PyDict) : PyDict :=
  if sources.isEmpty then filters
  else
    let ns0 := sources.map pyLower
    let f1 := if "pubmed" ∈ ns0 then
        setKey filters "metadata.is_pubmed" (.boolList [true]) else filters
    let ns1 := stage "pubmed" ns0
    let f2 := if "arxiv" ∈ ns1 then
        setdefaultAppendStr f1 "metadata.publisher" "arxiv" else f1
    let ns2 := stage "arxiv" ns1
    let f3 := if "biorxiv" ∈ ns2 then
        setdefaultAppendStr f2 "metadata.publisher" "biorxiv" else f2
    let ns3 := stage "biorxiv" ns2
    let f4 := if "medrxiv" ∈ ns3 then
        setdefaultAppendStr f3 "metadata.publisher" "medrxiv" else f3
    let ns4 := stage "medrxiv" ns3
    let remaining_types := ([] : List String) ++ (if ns4.isEmpty then [] else ns4)
    if remaining_types.isEmpty then f4 else setKey f4 "type" (.strList remaining_types)

/-- Embeds setup_date_filter (src/utils.py lines 89-100, src/mcp_server.py
lines 67-73; both copies are identical).  The local timezone offset tz
(seconds east of UTC) and the current date stand in for the process
environment consulted by date.today and time.mktime. -/
def setup_date_filter (tz : Int) (today : CivilDate)
    (start_date end_date : Option CivilDate) (filters : PyDict) : PyDict :=
  match start_date, end_date with
  | Option.none, Option.none => filters
  | _, _ =>
    let s := start_date.getD (dateFromTimestamp tz 0)
    let e := end_date.getD (addDays today 1)
    setKey filters "issued_at" (.rangeList [(mktime tz s, mktime tz e)])

/-- Embeds get_source_from_uri from src/utils.py lines 124-147. -/
def get_source_from_uri (uri : String) : String :=
  if uri = "" then "library"
  else
    let uri_lower := pyLower uri
    if pyStartsWith uri_lower "telegram://" || pyStartsWith uri_lower "t.me://" then "telegram"
    else if pyStartsWith uri_lower "reddit://" then "reddit"
    else if pyStartsWith uri_lower "youtube://" || pyStartsWith uri_lower "yt://" then "youtube"
    else "library"

/-! Tool dispatch shapes needed by the claims. -/

/-- Source argument of the unified search tool in src/tools.py (a Literal of
nine values, or None). -/
inductive ToolSource where
  | wiki
  | pubmed
  | arxiv
  | biorxiv
  | medrxiv
  | standard
  | telegram
  | reddit
  | youtube
  deriving DecidableEq, Repr

def ToolSource.name (s : ToolSource) : String :=
  match s with
  | .wiki => "wiki"
  | .pubmed => "pubmed"
  | .arxiv => "arxiv"
  | .biorxiv => "biorxiv"
  | .medrxiv => "medrxiv"
  | .standard => "standard"
  | .telegram => "telegram"
  | .reddit => "reddit"
  | .youtube => "youtube"

/-- Embeds the sources_filters construction of the unified search tool,
src/tools.py lines 82-94: an optional library entry built by the
src/utils.py setup_sources_filter, then an empty filter map keyed by the
source category for the three social sources.  Python dict insertion order
is preserved by the list. -/
def searchSourcesFilters (source : Option ToolSource) : List (String × PyDict) :=
  match source with
  | Option.none => []
  | some s =>
    let library_filters := setup_sources_filter [s.name] []
    let sf := if library_filters.isEmpty then [] else [("library", library_filters)]
    let sf := if s = .telegram then sf ++ [("telegram", ([] : PyDict))] else sf
    let sf := if s = .reddit then sf ++ [("reddit", ([] : PyDict))] else sf
    let sf := if s = .youtube then sf ++ [("youtube", ([] : PyDict))] else sf
    sf

/-- Request type of the simple_search client operation, with the fields the
code fills in (src/mcp_server.py lines 325-333). -/
structure SimpleSearchRequest where
  source : String
  filters : PyDict
  scoring : String
  limit : Int
  deriving DecidableEq, Repr

/-- Embeds the SimpleSearchRequest construction of
get_recent_posts_from_reddit, src/mcp_server.py lines 325-333.  The
with_comments tool parameter is in scope here exactly as in the Python
function body. -/
def buildRedditRecentRequest (subreddits : List String) (limit : Int)
    (with_comments : Bool) : SimpleSearchRequest :=
  { source := "reddit"
    filters := [("metadata.subreddit", PyVal.strList subreddits)]
    scoring := "temporal"
    limit := limit }

/-- Embeds the body of get_recent_posts_from_reddit (src/mcp_server.py lines
306-338) after authorization: build the request, call the client, shape the
response.  The external client is a parameter. -/
def getRecentPostsFromReddit (client : SimpleSearchRequest → SearchResponse)
    (subreddits : List String) (limit : Int) (with_comments : Bool) :
    Except PyExc SearchResponse :=
  serverFormatSearchResponse (client (buildRedditRecentRequest subreddits limit with_comments))

/-- Embeds the response shaping of get_document, src/tools.py lines 282-288:
a None from format_document_with_content becomes the not-found error
payload. -/
def getDocumentResult (search_response : SearchResponse) : Except PyExc PyDict :=
  (format_document_with_content search_response).map
    (fun document =>
      match document with
      | Option.none => [("error", PyVal.str "Document not found")]
      | some d => d)

/-- Embeds the response shaping of get_document_metadata, src/tools.py lines
364-375: an empty document list becomes the not-found error payload,
otherwise the first document is copied, its timestamp converted by
convert_issued_at and its source attached. -/
def getDocumentMetadataResult (search_response : SearchResponse) : Except PyExc PyDict :=
  match search_response.search_documents with
  | [] => .ok [("error", PyVal.str "Document not found")]
  | sd :: _ =>
    (convert_issued_at sd.document).map (fun d => setKey d "source" (PyVal.str sd.source))

/-! Characterization helpers for the source-to-filter expansion.  The
removeSpecials and pubsOf functions describe the final remaining token list
and the accumulated publisher list in terms of the input alone. -/

/-- Tokens left over for the type filter after the four special tokens each
had one occurrence removed. -/
def removeSpecials (ns : List String) : List String :=
  stage "medrxiv" (stage "biorxiv" (stage "arxiv" (stage "pubmed" ns)))

/-- Publisher strings accumulated by the src/utils.py copy, in the fixed
order of the code: arXiv, then bioRxiv, then medRxiv. -/
def pubsOf (ns : List String) : List String :=
  (if "arxiv" ∈ ns then ["arXiv"] else [])
    ++ (if "biorxiv" ∈ ns then ["bioRxiv"] else [])
    ++ (if "medrxiv" ∈ ns then ["medRxiv"] else [])

/-- Publisher strings accumulated by the src/mcp_server.py copy, which uses
the lower-case tokens themselves as canonical names. -/
def serverPubsOf (ns : List String) : List String :=
  (if "arxiv" ∈ ns then ["arxiv"] else [])
    ++ (if "biorxiv" ∈ ns then ["biorxiv"] else [])
    ++ (if "medrxiv" ∈ ns then ["medrxiv"] else [])

/-! Supporting lemmas about the dictionary operations. -/

theorem getKey_setKey_self (d : PyDict) (k : String) (v : PyVal) :
    getKey (setKey d k v) k = some v := by
  induction d with
  | nil => simp [getKey, setKey]
  | cons p rest ih =>
    obtain ⟨k0, v0⟩ := p
    by_cases h : k0 = k
    · simp [getKey, setKey, h]
    · simp [getKey, setKey, h, ih]

theorem getKey_setKey_ne (d : PyDict) (k k' : String) (v : PyVal) (h : k ≠ k') :
    getKey (setKey d k v) k' = getKey d k' := by
  induction d with
  | nil => simp [getKey, setKey, h]
  | cons p rest ih =>
    obtain ⟨k0, v0⟩ := p
    by_cases h0 : k0 = k
    · subst h0
      simp [getKey, setKey, h]
    · simp [getKey, setKey, h0, ih]

theorem mem_pyRemoveFirst_of_ne (ns : List String) (a b : String) (h : b ≠ a) :
    (b ∈ pyRemoveFirst ns a) = (b ∈ ns) := by
  induction ns with
  | nil => simp [pyRemoveFirst]
  | cons x rest ih =>
    by_cases hx : x = a
    · subst hx
      simp [pyRemoveFirst, h]
    · simp [pyRemoveFirst, hx, ih]

theorem mem_of_mem_pyRemoveFirst (ns : List String) (a b : String)
    (h : b ∈ pyRemoveFirst ns a) : b ∈ ns := by
  induction ns with
  | nil => simp [pyRemoveFirst] at h
  | cons x rest ih =>
    by_cases hx : x = a
    · subst hx
      simp only [pyRemoveFirst, if_pos rfl] at h
      exact List.mem_cons_of_mem _ h
    · simp only [pyRemoveFirst, if_neg hx, List.mem_cons] at h ⊢
      rcases h with h | h
      · exact Or.inl h
      · exact Or.inr (ih h)

theorem count_pyRemoveFirst_self (ns : List String) (a : String) (h : a ∈ ns) :
    (pyRemoveFirst ns a).count a + 1 = ns.count a := by
  induction ns with
  | nil => cases h
  | cons x rest ih =>
    by_cases hx : x = a
    · subst hx
      simp [pyRemoveFirst, List.count_cons_self]
    · have hmem : a ∈ rest := by
        rcases List.mem_cons.mp h with h1 | h1
        · exact absurd h1.symm hx
        · exact h1
      have hax : a ≠ x := fun hc => hx hc.symm
      simp [pyRemoveFirst, hx, List.count_cons, hax, ih hmem]

theorem count_pyRemoveFirst_of_ne (ns : List String) (a b : String) (h : b ≠ a) :
    (pyRemoveFirst ns a).count b = ns.count b := by
  induction ns with
  | nil => simp [pyRemoveFirst]
  | cons x rest ih =>
    by_cases hx : x = a
    · subst hx
      simp [pyRemoveFirst, List.count_cons, h]
    · simp [pyRemoveFirst, hx, List.count_cons, ih]

theorem count_stage_self (a : String) (ns : List String) :
    (stage a ns).count a = ns.count a - 1 := by
  unfold stage
  by_cases h : a ∈ ns
  · rw [if_pos h]
    have := count_pyRemoveFirst_self ns a h
    omega
  · rw [if_neg h]
    have : ns.count a = 0 := List.count_eq_zero.mpr h
    omega

theorem count_stage_ne (a b : String) (ns : List String) (h : b ≠ a) :
    (stage a ns).count b = ns.count b := by
  unfold stage
  by_cases hm : a ∈ ns
  · rw [if_pos hm, count_pyRemoveFirst_of_ne ns a b h]
  · rw [if_neg hm]

theorem not_mem_removeSpecials_of_count_one (ns : List String) (t : String)
    (ht : t = "pubmed" ∨ t = "arxiv" ∨ t = "biorxiv" ∨ t = "medrxiv")
    (hcount : ns.count t = 1) : t ∉ removeSpecials ns := by
  have key : (removeSpecials ns).count t = 0 := by
    rcases ht with h | h | h | h <;> subst h <;> unfold removeSpecials
    · rw [count_stage_ne _ _ _ (by decide), count_stage_ne _ _ _ (by decide),
        count_stage_ne _ _ _ (by decide), count_stage_self]
      omega
    · rw [count_stage_ne _ _ _ (by decide), count_stage_ne _ _ _ (by decide),
        count_stage_self, count_stage_ne _ _ _ (by decide)]
      omega
    · rw [count_stage_ne _ _ _ (by decide), count_stage_self,
        count_stage_ne _ _ _ (by decide), count_stage_ne _ _ _ (by decide)]
      omega
    · rw [count_stage_self, count_stage_ne _ _ _ (by decide),
        count_stage_ne _ _ _ (by decide), count_stage_ne _ _ _ (by decide)]
      omega
  exact List.count_eq_zero.mp key

theorem mem_stage_of_ne (a b : String) (ns : List String) (h : b ≠ a) :
    (b ∈ stage a ns) = (b ∈ ns) := by
  unfold stage
  by_cases hm : a ∈ ns
  · rw [if_pos hm, mem_pyRemoveFirst_of_ne ns a b h]
  · rw [if_neg hm]

theorem getKey_setdefaultAppendStr_ne (f : PyDict) (key k : String) (v : String)
    (h : key ≠ k) :
    getKey (setdefaultAppendStr f key v) k = getKey f k := by
  unfold setdefaultAppendStr
  cases hg : getKey f key with
  | none => exact getKey_setKey_ne _ _ _ _ h
  | some pv => cases pv <;> first | rfl | exact getKey_setKey_ne _ _ _ _ h

theorem getKey_setup_is_pubmed (sources : List String) :
    getKey (setup_sources_filter sources []) "metadata.is_pubmed" =
      (if "pubmed" ∈ sources.map pyLower then some (PyVal.boolList [true])
       else Option.none) := by
  by_cases hE : sources = []
  · subst hE
    decide
  · have hE2 : sources.isEmpty = false := by
      simp [List.isEmpty_iff, hE]
    unfold setup_sources_filter
    rw [hE2]
    simp only [Bool.false_eq_true, if_false]
    generalize sources.map pyLower = ns
    have hA : ∀ (d : PyDict) (v : PyVal),
        getKey (setKey d "type" v) "metadata.is_pubmed" = getKey d "metadata.is_pubmed" :=
      fun d v => getKey_setKey_ne d _ _ v (by decide)
    have hB : ∀ (d : PyDict) (v : String),
        getKey (setdefaultAppendStr d "metadata.publisher" v) "metadata.is_pubmed" =
          getKey d "metadata.is_pubmed" :=
      fun d v => getKey_setdefaultAppendStr_ne d _ _ v (by decide)
    have hC : ∀ (v : PyVal),
        getKey (setKey [] "metadata.is_pubmed" v) "metadata.is_pubmed" = some v :=
      fun v => getKey_setKey_self [] _ v
    simp only [apply_ite (fun d : PyDict => getKey d "metadata.is_pubmed"), hA, hB, hC,
      ite_self]
    rfl

theorem getKey_setup_type (sources : List String) :
    getKey (setup_sources_filter sources []) "type" =
      (if removeSpecials (sources.map pyLower) = [] then Option.none
       else some (PyVal.strList (removeSpecials (sources.map pyLower)))) := by
  by_cases hE : sources = []
  · subst hE
    decide
  · have hE2 : sources.isEmpty = false := by
      simp [List.isEmpty_iff, hE]
    unfold setup_sources_filter
    rw [hE2]
    simp only [Bool.false_eq_true, if_false]
    generalize sources.map pyLower = ns
    have hA : ∀ (d : PyDict) (v : PyVal), getKey (setKey d "type" v) "type" = some v :=
      fun d v => getKey_setKey_self d _ v
    have hB : ∀ (d : PyDict) (v : String),
        getKey (setdefaultAppendStr d "metadata.publisher" v) "type" = getKey d "type" :=
      fun d v => getKey_setdefaultAppendStr_ne d _ _ v (by decide)
    have hC : ∀ (v : PyVal),
        getKey (setKey [] "metadata.is_pubmed" v) "type" = Option.none :=
      fun v => by rw [getKey_setKey_ne _ _ _ _ (by decide)]; rfl
    have hD : getKey ([] : PyDict) "type" = Option.none := rfl
    simp only [apply_ite (fun d : PyDict => getKey d "type"), hA, hB, hC, hD, ite_self]
    simp only [removeSpecials, List.isEmpty_iff]

theorem getKey_setup_publisher (sources : List String) :
    getKey (setup_sources_filter sources []) "metadata.publisher" =
      (if pubsOf (sources.map pyLower) = [] then Option.none
       else some (PyVal.strList (pubsOf (sources.map pyLower)))) := by
  by_cases hE : sources = []
  · subst hE
    decide
  · have hE2 : sources.isEmpty = false := by
      simp [List.isEmpty_iff, hE]
    unfold setup_sources_filter
    rw [hE2]
    simp only [Bool.false_eq_true, if_false]
    generalize sources.map pyLower = ns
    have hA : ∀ (d : PyDict) (v : PyVal),
        getKey (setKey d "type" v) "metadata.publisher" = getKey d "metadata.publisher" :=
      fun d v => getKey_setKey_ne d _ _ v (by decide)
    have m2 : ("arxiv" ∈ stage "pubmed" ns) = ("arxiv" ∈ ns) :=
      mem_stage_of_ne _ _ _ (by decide)
    have m3 : ("biorxiv" ∈ stage "arxiv" (stage "pubmed" ns)) = ("biorxiv" ∈ ns) := by
      rw [mem_stage_of_ne _ _ _ (by decide), mem_stage_of_ne _ _ _ (by decide)]
    have m4 : ("medrxiv" ∈ stage "biorxiv" (stage "arxiv" (stage "pubmed" ns)))
        = ("medrxiv" ∈ ns) := by
      rw [mem_stage_of_ne _ _ _ (by decide), mem_stage_of_ne _ _ _ (by decide),
        mem_stage_of_ne _ _ _ (by decide)]
    simp only [apply_ite (fun d : PyDict => getKey d "metadata.publisher"), hA, ite_self,
      m2, m3, m4]
    by_cases hp : "pubmed" ∈ ns <;> by_cases ha : "arxiv" ∈ ns <;>
      by_cases hb : "biorxiv" ∈ ns <;> by_cases hm : "medrxiv" ∈ ns <;>
      simp [hp, ha, hb, hm, pubsOf, setdefaultAppendStr, setKey, getKey]

theorem getKey_server_setup_is_pubmed (sources : List String) :
    getKey (serverSetupSourcesFilter sources []) "metadata.is_pubmed" =
      (if "pubmed" ∈ sources.map pyLower then some (PyVal.boolList [true])
       else Option.none) := by
  by_cases hE : sources = []
  · subst hE
    decide
  · have hE2 : sources.isEmpty = false := by
      simp [List.isEmpty_iff, hE]
    unfold serverSetupSourcesFilter
    rw [hE2]
    simp only [Bool.false_eq_true, if_false]
    generalize sources.map pyLower = ns
    have hA : ∀ (d : PyDict) (v : PyVal),
        getKey (setKey d "type" v) "metadata.is_pubmed" = getKey d "metadata.is_pubmed" :=
      fun d v => getKey_setKey_ne d _ _ v (by decide)
    have hB : ∀ (d : PyDict) (v : String),
        getKey (setdefaultAppendStr d "metadata.publisher" v) "metadata.is_pubmed" =
          getKey d "metadata.is_pubmed" :=
      fun d v => getKey_setdefaultAppendStr_ne d _ _ v (by decide)
    have hC : ∀ (v : PyVal),
        getKey (setKey [] "metadata.is_pubmed" v) "metadata.is_pubmed" = some v :=
      fun v => getKey_setKey_self [] _ v
    simp only [apply_ite (fun d : PyDict => getKey d "metadata.is_pubmed"), hA, hB, hC,
      ite_self]
    rfl

theorem getKey_server_setup_type (sources : List String) :
    getKey (serverSetupSourcesFilter sources []) "type" =
      (if removeSpecials (sources.map pyLower) = [] then Option.none
       else some (PyVal.strList (removeSpecials (sources.map pyLower)))) := by
  by_cases hE : sources = []
  · subst hE
    decide
  · have hE2 : sources.isEmpty = false := by
      simp [List.isEmpty_iff, hE]
    unfold serverSetupSourcesFilter
    rw [hE2]
    simp only [Bool.false_eq_true, if_false]
    generalize sources.map pyLower = ns
    have hA : ∀ (d : PyDict) (v : PyVal), getKey (setKey d "type" v) "type" = some v :=
      fun d v => getKey_setKey_self d _ v
    have hB : ∀ (d : PyDict) (v : String),
        getKey (setdefaultAppendStr d "metadata.publisher" v) "type" = getKey d "type" :=
      fun d v => getKey_setdefaultAppendStr_ne d _ _ v (by decide)
    have hC : ∀ (v : PyVal),
        getKey (setKey [] "metadata.is_pubmed" v) "type" = Option.none :=
      fun v => by rw [getKey_setKey_ne _ _ _ _ (by decide)]; rfl
    have hD : getKey ([] : PyDict) "type" = Option.none := rfl
    simp only [List.nil_append]
    by_cases hc : stage "medrxiv" (stage "biorxiv" (stage "arxiv" (stage "pubmed" ns))) = []
    · simp only [hc, List.isEmpty_nil, if_true, ite_true]
      simp only [apply_ite (fun d : PyDict => getKey d "type"), hA, hB, hC, hD, ite_self]
      simp [removeSpecials, hc]
    · have hcb : (stage "medrxiv" (stage "biorxiv" (stage "arxiv"
          (stage "pubmed" ns)))).isEmpty = false := by
        simp [List.isEmpty_iff, hc]
      simp only [hcb, Bool.false_eq_true, if_false]
      simp only [apply_ite (fun d : PyDict => getKey d "type"), hA, hB, hC, hD, ite_self]
      simp only [removeSpecials]
      rw [if_neg hc]

theorem getKey_server_setup_publisher (sources : List String) :
    getKey (serverSetupSourcesFilter sources []) "metadata.publisher" =
      (if serverPubsOf (sources.map pyLower) = [] then Option.none
       else some (PyVal.strList (serverPubsOf (sources.map pyLower)))) := by
  by_cases hE : sources = []
  · subst hE
    decide
  · have hE2 : sources.isEmpty = false := by
      simp [List.isEmpty_iff, hE]
    unfold serverSetupSourcesFilter
    rw [hE2]
    simp only [Bool.false_eq_true, if_false]
    generalize sources.map pyLower = ns
    have hA : ∀ (d : PyDict) (v : PyVal),
        getKey (setKey d "type" v) "metadata.publisher" = getKey d "metadata.publisher" :=
      fun d v => getKey_setKey_ne d _ _ v (by decide)
    have m2 : ("arxiv" ∈ stage "pubmed" ns) = ("arxiv" ∈ ns) :=
      mem_stage_of_ne _ _ _ (by decide)
    have m3 : ("biorxiv" ∈ stage "arxiv" (stage "pubmed" ns)) = ("biorxiv" ∈ ns) := by
      rw [mem_stage_of_ne _ _ _ (by decide), mem_stage_of_ne _ _ _ (by decide)]
    have m4 : ("medrxiv" ∈ stage "biorxiv" (stage "arxiv" (stage "pubmed" ns)))
        = ("medrxiv" ∈ ns) := by
      rw [mem_stage_of_ne _ _ _ (by decide), mem_stage_of_ne _ _ _ (by decide),
        mem_stage_of_ne _ _ _ (by decide)]
    simp only [apply_ite (fun d : PyDict => getKey d "metadata.publisher"), hA, ite_self,
      m2, m3, m4]
    by_cases hp : "pubmed" ∈ ns <;> by_cases ha : "arxiv" ∈ ns <;>
      by_cases hb : "biorxiv" ∈ ns <;> by_cases hm : "medrxiv" ∈ ns <;>
      simp [hp, ha, hb, hm, serverPubsOf, setdefaultAppendStr, setKey, getKey]

/-- Keys other than issued_at are untouched by a normal return of
convert_issued_at. -/
theorem convert_preserves_other_keys (document d : PyDict) (k : String)
    (hk : k ≠ "issued_at") (h : convert_issued_at document = Except.ok d) :
    getKey d k = getKey document k := by
  unfold convert_issued_at at h
  cases hg : getKey document "issued_at" with
  | none =>
    simp only [hg] at h
    rw [← Except.ok.inj h]
  | some v =>
    simp only [hg] at h
    cases hf : fromtimestampIso v with
    | ok s =>
      simp only [hf] at h
      rw [← Except.ok.inj h, getKey_setKey_ne _ _ _ _ (Ne.symm hk)]
    | error e =>
      simp only [hf] at h
      by_cases hcaught : isCaughtByConvert e
      · rw [if_pos hcaught] at h
        rw [← Except.ok.inj h]
      · rw [if_neg hcaught] at h
        cases h

/-! Theorems settling the claims. -/

/-- C4: whenever get_document or get_document_metadata receives a search
response containing zero search documents, it returns exactly the one-key
mapping error = Document not found, rather than an empty success payload or
a raised exception. -/
theorem c4_not_found_shaping (search_response : SearchResponse)
    (h : search_response.search_documents = []) :
    getDocumentResult search_response = Except.ok [("error", PyVal.str "Document not found")]
    ∧ getDocumentMetadataResult search_response
      = Except.ok [("error", PyVal.str "Document not found")] := by
  obtain ⟨docs⟩ := search_response
  simp only at h
  subst h
  exact ⟨rfl, rfl⟩

theorem c4_not_found_shaping_witness :
    getDocumentResult ⟨[]⟩ = Except.ok [("error", PyVal.str "Document not found")]
    ∧ getDocumentMetadataResult ⟨[]⟩
      = Except.ok [("error", PyVal.str "Document not found")] :=
  c4_not_found_shaping ⟨[]⟩ rfl

/-- C5: get_source_from_uri is a total deterministic function into the four
categories: the empty string maps to library; otherwise, after lower-casing,
a URI starting with telegram:// or t.me:// maps to telegram, reddit:// to reddit,
youtube:// or yt:// to youtube, and every other string to library, as
witnessed on the concrete URIs of the spec. -/
theorem c5_uri_classification (uri : String) :
    (get_source_from_uri uri = "library" ∨ get_source_from_uri uri = "telegram"
      ∨ get_source_from_uri uri = "reddit" ∨ get_source_from_uri uri = "youtube")
  ∧ (uri = "" → get_source_from_uri uri = "library")
  ∧ (uri ≠ "" →
      (pyStartsWith (pyLower uri) "telegram://" = true
        ∨ pyStartsWith (pyLower uri) "t.me://" = true) →
      get_source_from_uri uri = "telegram")
  ∧ (uri ≠ "" → pyStartsWith (pyLower uri) "telegram://" = false →
      pyStartsWith (pyLower uri) "t.me://" = false →
      pyStartsWith (pyLower uri) "reddit://" = true →
      get_source_from_uri uri = "reddit")
  ∧ (uri ≠ "" → pyStartsWith (pyLower uri) "telegram://" = false →
      pyStartsWith (pyLower uri) "t.me://" = false →
      pyStartsWith (pyLower uri) "reddit://" = false →
      (pyStartsWith (pyLower uri) "youtube://" = true
        ∨ pyStartsWith (pyLower uri) "yt://" = true) →
      get_source_from_uri uri = "youtube")
  ∧ (uri ≠ "" → pyStartsWith (pyLower uri) "telegram://" = false →
      pyStartsWith (pyLower uri) "t.me://" = false →
      pyStartsWith (pyLower uri) "reddit://" = false →
      pyStartsWith (pyLower uri) "youtube://" = false →
      pyStartsWith (pyLower uri) "yt://" = false →
      get_source_from_uri uri = "library")
  ∧ get_source_from_uri "TELEGRAM://foo" = "telegram"
  ∧ get_source_from_uri "doi://10.1/x" = "library"
  ∧ get_source_from_uri "" = "library"
  ∧ get_source_from_uri "reddit://r/test" = "reddit" := by
  refine ⟨?_, ?_, ?_, ?_, ?_, ?_, by decide, by decide, by decide, by decide⟩
  · unfold get_source_from_uri
    by_cases h0 : uri = ""
    · simp [h0]
    · rw [if_neg h0]
      dsimp only
      split_ifs <;> simp
  · intro h0
    simp [get_source_from_uri, h0]
  · intro h0 h1
    rcases h1 with h1 | h1 <;>
      simp [get_source_from_uri, h0, h1]
  · intro h0 h1 h2 h3
    simp [get_source_from_uri, h0, h1, h2, h3]
  · intro h0 h1 h2 h3 h4
    rcases h4 with h4 | h4 <;>
      simp [get_source_from_uri, h0, h1, h2, h3, h4]
  · intro h0 h1 h2 h3 h4 h5
    simp [get_source_from_uri, h0, h1, h2, h3, h4, h5]

theorem c5_uri_classification_witness :
    get_source_from_uri "t.me://chan" = "telegram" :=
  (c5_uri_classification "t.me://chan").2.2.1 (by decide) (Or.inr (by decide))

/-- C9: in the unified search tool of src/tools.py, a telegram, reddit or
youtube source argument produces sources_filters with exactly two entries,
the library entry carrying the type filter and an empty filter map keyed by
the source category; every other non-null source produces only the library
entry, and a null source produces the empty map. -/
theorem c9_search_sources_filters :
    searchSourcesFilters Option.none = []
  ∧ searchSourcesFilters (some ToolSource.telegram) =
      [("library", [("type", PyVal.strList ["telegram"])]), ("telegram", [])]
  ∧ searchSourcesFilters (some ToolSource.reddit) =
      [("library", [("type", PyVal.strList ["reddit"])]), ("reddit", [])]
  ∧ searchSourcesFilters (some ToolSource.youtube) =
      [("library", [("type", PyVal.strList ["youtube"])]), ("youtube", [])]
  ∧ searchSourcesFilters (some ToolSource.wiki) =
      [("library", [("type", PyVal.strList ["wiki"])])]
  ∧ searchSourcesFilters (some ToolSource.standard) =
      [("library", [("type", PyVal.strList ["standard"])])]
  ∧ searchSourcesFilters (some ToolSource.pubmed) =
      [("library", [("metadata.is_pubmed", PyVal.boolList [true])])]
  ∧ searchSourcesFilters (some ToolSource.arxiv) =
      [("library", [("metadata.publisher", PyVal.strList ["arXiv"])])]
  ∧ searchSourcesFilters (some ToolSource.biorxiv) =
      [("library", [("metadata.publisher", PyVal.strList ["bioRxiv"])])]
  ∧ searchSourcesFilters (some ToolSource.medrxiv) =
      [("library", [("metadata.publisher", PyVal.strList ["medRxiv"])])] := by
  refine ⟨?_, ?_, ?_, ?_, ?_, ?_, ?_, ?_, ?_, ?_⟩ <;> decide

/-- C10: two runs of get_recent_posts_from_reddit whose arguments differ only
in with_comments build the same SimpleSearchRequest and, against any client
behaviour, return the same result: the parameter never influences the
request or the response. -/
theorem c10_with_comments_noninterference
    (client : SimpleSearchRequest → SearchResponse)
    (subreddits : List String) (limit : Int) (c1 c2 : Bool) :
    buildRedditRecentRequest subreddits limit c1 = buildRedditRecentRequest subreddits limit c2
    ∧ getRecentPostsFromReddit client subreddits limit c1
      = getRecentPostsFromReddit client subreddits limit c2 :=
  ⟨rfl, rfl⟩

/-- C1 as stated is false: the claim asserts that a failing issued_at
conversion is swallowed in every copy of the shaping code, but the
src/utils.py copy propagates TypeError for a wrong-typed value (its except
clause lists only ValueError, OSError and OverflowError), and the
src/mcp_server.py copy of format_search_response has no try block at all, so
even an out-of-range numeric value aborts the response there. -/
theorem c1_counterexample :
    convert_issued_at [("issued_at", PyVal.str "not-a-number")]
      = Except.error PyExc.typeError
  ∧ serverFormatSearchResponse ⟨[⟨[("issued_at", PyVal.int 1000000000000)], [], "library"⟩]⟩
      = Except.error PyExc.valueError := by
  exact ⟨by decide, by decide⟩

/-- C1 amended: for every document, an absent issued_at adds no key and both
copies return normally; an in-range numeric issued_at is rewritten in place
to the ISO string in both copies; an out-of-range numeric issued_at is left
untouched with a normal return by the src/utils.py convert_issued_at, while
the unguarded src/mcp_server.py conversion raises; a wrong-typed (string)
issued_at raises TypeError in both copies. -/
theorem c1_timestamp_normalization (document : PyDict) :
    (getKey document "issued_at" = Option.none →
      convert_issued_at document = Except.ok document
      ∧ serverConvertIssuedAt document = Except.ok document)
  ∧ (∀ n : Int, getKey document "issued_at" = some (PyVal.int n) → tsMin ≤ n → n ≤ tsMax →
      convert_issued_at document
        = Except.ok (setKey document "issued_at" (PyVal.str (isoFromSeconds n)))
      ∧ serverConvertIssuedAt document
        = Except.ok (setKey document "issued_at" (PyVal.str (isoFromSeconds n))))
  ∧ (∀ n : Int, getKey document "issued_at" = some (PyVal.int n) → ¬(tsMin ≤ n ∧ n ≤ tsMax) →
      convert_issued_at document = Except.ok document
      ∧ serverConvertIssuedAt document = Except.error PyExc.valueError)
  ∧ (∀ s : String, getKey document "issued_at" = some (PyVal.str s) →
      convert_issued_at document = Except.error PyExc.typeError
      ∧ serverConvertIssuedAt document = Except.error PyExc.typeError) := by
  refine ⟨?_, ?_, ?_, ?_⟩
  · intro h
    simp only [convert_issued_at, serverConvertIssuedAt, h]
    constructor <;> trivial
  · intro n h h1 h2
    simp only [convert_issued_at, serverConvertIssuedAt, h, fromtimestampIso]
    rw [if_pos ⟨h1, h2⟩]
    constructor <;> trivial
  · intro n h hout
    simp only [convert_issued_at, serverConvertIssuedAt, h, fromtimestampIso]
    rw [if_neg hout]
    constructor <;> trivial
  · intro s h
    simp only [convert_issued_at, serverConvertIssuedAt, h, fromtimestampIso]
    constructor <;> trivial

theorem c1_timestamp_normalization_witness :
    convert_issued_at [("issued_at", PyVal.int 0)]
      = Except.ok (setKey [("issued_at", PyVal.int 0)] "issued_at"
          (PyVal.str (isoFromSeconds 0)))
  ∧ serverConvertIssuedAt [("issued_at", PyVal.int 0)]
      = Except.ok (setKey [("issued_at", PyVal.int 0)] "issued_at"
          (PyVal.str (isoFromSeconds 0))) :=
  (c1_timestamp_normalization [("issued_at", PyVal.int 0)]).2.1 0 (by decide) (by decide)
    (by decide)

/-- C2: with an inbound request, process_authorization returns a pair of
which at most one component is non-null, chosen by first-match precedence:
X-User-Id, else Authorization with the leading Bearer token and surrounding
whitespace stripped, else X-Api-Key, else the truthy environment key, else
nothing; in particular both X-User-Id u1 and Authorization Bearer k1 present
resolve to (api_key = None, user_id = u1). -/
theorem c2_process_authorization (headers : List (String × String))
    (envApiKey : Option String) :
    ((process_authorization envApiKey (some headers)).1 = Option.none
      ∨ (process_authorization envApiKey (some headers)).2 = Option.none)
  ∧ (∀ u, lookupHeader headers "X-User-Id" = some u →
      process_authorization envApiKey (some headers) = (Option.none, some u))
  ∧ (∀ a, lookupHeader headers "X-User-Id" = Option.none →
      lookupHeader headers "Authorization" = some a →
      process_authorization envApiKey (some headers)
        = (some (pyStrip (removeBearer a)), Option.none))
  ∧ (∀ k, lookupHeader headers "X-User-Id" = Option.none →
      lookupHeader headers "Authorization" = Option.none →
      lookupHeader headers "X-Api-Key" = some k →
      process_authorization envApiKey (some headers) = (some k, Option.none))
  ∧ (∀ e, lookupHeader headers "X-User-Id" = Option.none →
      lookupHeader headers "Authorization" = Option.none →
      lookupHeader headers "X-Api-Key" = Option.none →
      envApiKey = some e → e ≠ "" →
      process_authorization envApiKey (some headers) = (some e, Option.none))
  ∧ (lookupHeader headers "X-User-Id" = Option.none →
      lookupHeader headers "Authorization" = Option.none →
      lookupHeader headers "X-Api-Key" = Option.none →
      (envApiKey = Option.none ∨ envApiKey = some "") →
      process_authorization envApiKey (some headers) = (Option.none, Option.none))
  ∧ process_authorization envApiKey
      (some [("X-User-Id", "u1"), ("Authorization", "Bearer k1")])
      = (Option.none, some "u1") := by
  refine ⟨?_, ?_, ?_, ?_, ?_, ?_, rfl⟩
  · simp only [process_authorization]
    cases hu : lookupHeader headers "X-User-Id" with
    | some u => exact Or.inl rfl
    | none =>
      cases ha : lookupHeader headers "Authorization" with
      | some a => exact Or.inr rfl
      | none =>
        cases hk : lookupHeader headers "X-Api-Key" with
        | some k => exact Or.inr rfl
        | none =>
          cases he : envApiKey with
          | none => exact Or.inl rfl
          | some e =>
            by_cases h0 : e = "" <;> simp [h0]
  · intro u hu
    simp [process_authorization, hu]
  · intro a hu ha
    simp [process_authorization, hu, ha]
  · intro k hu ha hk
    simp [process_authorization, hu, ha, hk]
  · intro e hu ha hk he h0
    simp only [process_authorization, hu, ha, hk, he]
    rw [if_neg h0]
  · intro hu ha hk he
    rcases he with he | he <;> simp [process_authorization, hu, ha, hk, he]

theorem c2_process_authorization_witness :
    process_authorization (some "envkey") (some [("X-Api-Key", "k9")])
      = (some "k9", Option.none) :=
  (c2_process_authorization [("X-Api-Key", "k9")] (some "envkey")).2.2.2.1 "k9"
    (by decide) (by decide) (by decide)

/-- C3 as stated is false for repeated occurrences: list.remove deletes only
the first occurrence of pubmed, so the selector list with pubmed twice sets
metadata.is_pubmed and still carries pubmed inside the type filter. -/
theorem c3_counterexample :
    "pubmed" ∈ (["pubmed", "pubmed"].map pyLower)
  ∧ getKey (setup_sources_filter ["pubmed", "pubmed"] []) "metadata.is_pubmed"
      = some (PyVal.boolList [true])
  ∧ getKey (setup_sources_filter ["pubmed", "pubmed"] []) "type"
      = some (PyVal.strList ["pubmed"])
  ∧ "pubmed" ∈ ["pubmed"] := by
  exact ⟨by decide, by decide, by decide, by decide⟩

/-- C3 amended: for every source-selector list containing pubmed (matched
case-insensitively), the built filter map contains metadata.is_pubmed equal
to the one-element true list; and when pubmed occurs exactly once among the
lowered tokens, pubmed does not occur in the type filter list (only the
first occurrence is removed, so further duplicates remain there). -/
theorem c3_pubmed_filter (sources : List String)
    (h : "pubmed" ∈ sources.map pyLower) :
    getKey (setup_sources_filter sources []) "metadata.is_pubmed"
      = some (PyVal.boolList [true])
  ∧ ((sources.map pyLower).count "pubmed" = 1 →
      ∀ xs, getKey (setup_sources_filter sources []) "type" = some (PyVal.strList xs) →
        "pubmed" ∉ xs) := by
  constructor
  · rw [getKey_setup_is_pubmed, if_pos h]
  · intro hc xs hx
    rw [getKey_setup_type] at hx
    by_cases hr : removeSpecials (sources.map pyLower) = []
    · rw [if_pos hr] at hx
      cases hx
    · rw [if_neg hr] at hx
      have hxs : removeSpecials (sources.map pyLower) = xs := by
        have := Option.some.inj hx
        exact PyVal.strList.inj this
      rw [← hxs]
      exact not_mem_removeSpecials_of_count_one _ _ (Or.inl rfl) hc

theorem c3_pubmed_filter_witness :
    getKey (setup_sources_filter ["PubMed", "wiki"] []) "metadata.is_pubmed"
      = some (PyVal.boolList [true]) :=
  (c3_pubmed_filter ["PubMed", "wiki"] (by decide)).1

/-- C6 as stated is false in timezones west of UTC: the start bound of the
default range is date.fromtimestamp(0), the local calendar date of the epoch
instant, which at offset -18000 seconds (UTC-5) is 1969-12-31, so the
produced start (-68400) is the midnight of 1969-12-31, not the midnight
18000 of 1970-01-01. -/
theorem c6_counterexample :
    dateFromTimestamp (-18000) 0 = ⟨1969, 12, 31⟩
  ∧ setup_date_filter (-18000) ⟨2024, 1, 1⟩ Option.none (some ⟨2024, 6, 1⟩) []
      = [("issued_at", PyVal.rangeList [(-68400, 1717218000)])]
  ∧ mktime (-18000) ⟨1970, 1, 1⟩ = 18000
  ∧ (-68400 : Int) ≠ 18000 := by
  exact ⟨by decide, by decide, by decide, by decide⟩

/-- C6 amended: with both bounds absent the filter map is unchanged; with at
least one bound, a missing start defaults to the local calendar date of the
epoch instant (equal to 1970-01-01 exactly when the fixed local offset is
nonnegative and below one day) and a missing end defaults to today plus one
day, and issued_at becomes the single (start_seconds, end_seconds) range of
local-midnight POSIX seconds. -/
theorem c6_date_filter (tz : Int) (today : CivilDate) (filters : PyDict) :
    setup_date_filter tz today Option.none Option.none filters = filters
  ∧ (∀ ed, setup_date_filter tz today Option.none (some ed) filters =
      setKey filters "issued_at" (PyVal.rangeList
        [(mktime tz (dateFromTimestamp tz 0), mktime tz ed)]))
  ∧ (∀ sd, setup_date_filter tz today (some sd) Option.none filters =
      setKey filters "issued_at" (PyVal.rangeList
        [(mktime tz sd, mktime tz (addDays today 1))]))
  ∧ (∀ sd ed, setup_date_filter tz today (some sd) (some ed) filters =
      setKey filters "issued_at" (PyVal.rangeList [(mktime tz sd, mktime tz ed)]))
  ∧ (0 ≤ tz → tz < 86400 → dateFromTimestamp tz 0 = ⟨1970, 1, 1⟩) := by
  refine ⟨rfl, fun ed => rfl, fun sd => rfl, fun sd ed => rfl, ?_⟩
  intro h0 h1
  unfold dateFromTimestamp
  have hz : (0 + tz).fdiv 86400 = 0 := by
    rw [Int.zero_add, Int.fdiv_eq_ediv _ (by omega)]
    exact Int.ediv_eq_zero_of_lt h0 h1
  rw [hz]
  decide

theorem c6_date_filter_witness :
    setup_date_filter 0 ⟨2024, 1, 1⟩ Option.none (some ⟨2024, 6, 1⟩) []
      = setKey [] "issued_at" (PyVal.rangeList
          [(mktime 0 (dateFromTimestamp 0 0), mktime 0 ⟨2024, 6, 1⟩)])
  ∧ dateFromTimestamp 0 0 = ⟨1970, 1, 1⟩ :=
  ⟨(c6_date_filter 0 ⟨2024, 1, 1⟩ []).2.1 ⟨2024, 6, 1⟩,
    (c6_date_filter 0 ⟨2024, 1, 1⟩ []).2.2.2.2 (by decide) (by decide)⟩

/-- C7 as stated is false: the publisher names are appended in the fixed
order of the code (arxiv, then biorxiv, then medrxiv), not in input order,
as the selector list [medrxiv, arxiv] shows; and the two copies differ in
the canonical strings (arXiv in src/utils.py, arxiv in src/mcp_server.py),
so the behaviour is not the same in both copies. -/
theorem c7_counterexample :
    getKey (setup_sources_filter ["medrxiv", "arxiv"] []) "metadata.publisher"
      = some (PyVal.strList ["arXiv", "medRxiv"])
  ∧ PyVal.strList ["arXiv", "medRxiv"] ≠ PyVal.strList ["medRxiv", "arXiv"]
  ∧ setup_sources_filter ["arxiv"] [] ≠ serverSetupSourcesFilter ["arxiv"] [] := by
  exact ⟨by decide, by decide, by decide⟩

/-- C7 amended: each of arxiv, biorxiv, medrxiv present in the lowered
selector list contributes its canonical publisher name (arXiv, bioRxiv,
medRxiv in src/utils.py; the lower-case token itself in src/mcp_server.py)
to the metadata.publisher list, appended without overwriting in the fixed
code order arxiv, biorxiv, medrxiv regardless of input order; and a token
occurring exactly once is excluded from the type filter in both copies. -/
theorem c7_publisher_filter (sources : List String) :
    getKey (setup_sources_filter sources []) "metadata.publisher"
      = (if pubsOf (sources.map pyLower) = [] then Option.none
         else some (PyVal.strList (pubsOf (sources.map pyLower))))
  ∧ getKey (serverSetupSourcesFilter sources []) "metadata.publisher"
      = (if serverPubsOf (sources.map pyLower) = [] then Option.none
         else some (PyVal.strList (serverPubsOf (sources.map pyLower))))
  ∧ (∀ t, t = "arxiv" ∨ t = "biorxiv" ∨ t = "medrxiv" →
      (sources.map pyLower).count t = 1 →
      (∀ xs, getKey (setup_sources_filter sources []) "type" = some (PyVal.strList xs) →
        t ∉ xs)
      ∧ (∀ xs, getKey (serverSetupSourcesFilter sources []) "type"
            = some (PyVal.strList xs) → t ∉ xs)) := by
  refine ⟨getKey_setup_publisher sources, getKey_server_setup_publisher sources, ?_⟩
  intro t ht hc
  have hnot : t ∉ removeSpecials (sources.map pyLower) :=
    not_mem_removeSpecials_of_count_one _ _ (Or.inr ht) hc
  constructor
  · intro xs hx
    rw [getKey_setup_type] at hx
    by_cases hr : removeSpecials (sources.map pyLower) = []
    · rw [if_pos hr] at hx
      cases hx
    · rw [if_neg hr] at hx
      have hxs : removeSpecials (sources.map pyLower) = xs :=
        PyVal.strList.inj (Option.some.inj hx)
      rw [← hxs]
      exact hnot
  · intro xs hx
    rw [getKey_server_setup_type] at hx
    by_cases hr : removeSpecials (sources.map pyLower) = []
    · rw [if_pos hr] at hx
      cases hx
    · rw [if_neg hr] at hx
      have hxs : removeSpecials (sources.map pyLower) = xs :=
        PyVal.strList.inj (Option.some.inj hx)
      rw [← hxs]
      exact hnot

theorem c7_publisher_filter_witness :
    "medrxiv" ∉ ["wiki"] :=
  ((c7_publisher_filter ["medrxiv", "wiki"]).2.2 "medrxiv" (Or.inr (Or.inr rfl))
    (by decide)).1 ["wiki"] (by decide)

/-- C8: when the first returned search document has a non-empty snippet
list, the shaped document of format_document_with_content carries a content
field equal to all snippet texts joined with the separator, so snippets a
and b yield a, the separator, then b; when the snippet list is empty the
content key of the output is whatever the raw document already had, so no
content key is added. -/
theorem c8_content_synthesis (r : SearchResponse) (sd : SearchDocument)
    (h1 : r.search_documents.head? = some sd) (out : PyDict)
    (h2 : format_document_with_content r = Except.ok (some out)) :
    (sd.snippets ≠ [] →
      getKey out "content" = some (PyVal.str (pyJoin " <...> " sd.snippets)))
  ∧ (sd.snippets = [] → getKey out "content" = getKey sd.document "content")
  ∧ pyJoin " <...> " ["a", "b"] = "a <...> b" := by
  obtain ⟨docs⟩ := r
  cases docs with
  | nil => cases h1
  | cons sd0 rest =>
    have hsd : sd0 = sd := by
      simpa using h1
    subst hsd
    simp only [format_document_with_content] at h2
    cases hconv : convert_issued_at sd0.document with
    | error e =>
      rw [hconv] at h2
      cases h2
    | ok d =>
      rw [hconv] at h2
      simp only [Except.bind, bind, pure, Except.pure, Except.ok.injEq,
        Option.some.injEq] at h2
      refine ⟨?_, ?_, by decide⟩
      · intro hne
        have hb : sd0.snippets.isEmpty = false := by
          simp [List.isEmpty_iff, hne]
        rw [hb] at h2
        simp only [Bool.false_eq_true, if_false] at h2
        rw [← h2, getKey_setKey_ne _ _ _ _ (by decide), getKey_setKey_self]
        rfl
      · intro hemp
        have hb : sd0.snippets.isEmpty = true := by
          simp [List.isEmpty_iff, hemp]
        rw [hb] at h2
        simp only [if_true, ite_true] at h2
        rw [← h2, getKey_setKey_ne _ _ _ _ (by decide)]
        exact convert_preserves_other_keys sd0.document d "content" (by decide) hconv

theorem c8_content_synthesis_witness :
    getKey [("content", PyVal.str "a <...> b"), ("source", PyVal.str "library")] "content"
      = some (PyVal.str (pyJoin " <...> " ["a", "b"])) :=
  (c8_content_synthesis ⟨[⟨[], ["a", "b"], "library"⟩]⟩ ⟨[], ["a", "b"], "library"⟩
    (by decide) [("content", PyVal.str "a <...> b"), ("source", PyVal.str "library")]
    (by decide)).1 (by decide)

end Mcp

section Scratch

open Mcp

example : pyLower "PubMed" = "pubmed" := by decide

example : daysFromCivil ⟨1970, 1, 1⟩ = 0 := by decide

example : daysFromCivil ⟨2024, 6, 1⟩ = 19875 := by decide

example : civilFromDays 19875 = ⟨2024, 6, 1⟩ := by decide

example : civilFromDays (-1) = ⟨1969, 12, 31⟩ := by decide

example : isoFromSeconds 0 = "1970-01-01T00:00:00" := by decide

example : convert_issued_at [("issued_at", PyVal.int 0)] =
    Except.ok [("issued_at", PyVal.str "1970-01-01T00:00:00")] := by decide

example : convert_issued_at [("issued_at", PyVal.str "x")] =
    Except.error PyExc.typeError := by decide

example : convert_issued_at [("issued_at", PyVal.int 1000000000000)] =
    Except.ok [("issued_at", PyVal.int 1000000000000)] := by decide

example : serverConvertIssuedAt [("issued_at", PyVal.int 1000000000000)] =
    Except.error PyExc.valueError := by decide

example : format_document_with_content ⟨[⟨[], ["a", "b"], "library"⟩]⟩ =
    Except.ok (some [("content", PyVal.str "a <...> b"), ("source", PyVal.str "library")]) := by
  decide

example : setup_sources_filter ["pubmed", "pubmed"] [] =
    [("metadata.is_pubmed", PyVal.boolList [true]), ("type", PyVal.strList ["pubmed"])] := by
  decide

example : setup_sources_filter ["medrxiv", "arxiv"] [] =
    [("metadata.publisher", PyVal.strList ["arXiv", "medRxiv"])] := by decide

example : serverSetupSourcesFilter ["arxiv"] [] =
    [("metadata.publisher", PyVal.strList ["arxiv"])] := by decide

example : setup_sources_filter ["wiki", "standard"] [] =
    [("type", PyVal.strList ["wiki", "standard"])] := by decide

example : setup_date_filter (-18000) ⟨2024, 1, 1⟩ Option.none (some ⟨2024, 6, 1⟩) [] =
    [("issued_at", PyVal.rangeList [(-68400, 1717218000)])] := by decide

example : setup_date_filter 0 ⟨2024, 1, 1⟩ Option.none (some ⟨2024, 6, 1⟩) [] =
    [("issued_at", PyVal.rangeList [(0, 1717200000)])] := by decide

example : searchSourcesFilters (some .telegram) =
    [("library", [("type", PyVal.strList ["telegram"])]), ("telegram", [])] := by decide

example : searchSourcesFilters (some .pubmed) =
    [("library", [("metadata.is_pubmed", PyVal.boolList [true])])] := by decide

example : process_authorization (some "env")
    (some [("X-User-Id", "u1"), ("Authorization", "Bearer k1")]) =
    (Option.none, some "u1") := by decide

example : process_authorization (some "env") (some [("Authorization", "Bearer k1")]) =
    (some "k1", Option.none) := by decide

example : get_source_from_uri "TELEGRAM://foo" = "telegram" := by decide

example : get_source_from_uri "doi://10.1/x" = "library" := by decide

end Scratch
